import Mathlib

/-!
Shallow embedding of the BGP anomaly-detection pipeline
(bhupeshkurra/bgp-monitoring-system) used to settle the frozen claims
about its specification.  Each definition is translated from a named
function in `src/services/`; theorems settle the claims at the end of
the file.
-/

namespace BGPMon

/-! ## String helpers (Python `in`, `str.lower`) -/

/-- Python substring test `sub in l`, on character lists:
true when `sub` occurs contiguously inside `l`. -/
def listContainsSub (sub : List Char) : List Char → Bool
  | [] => sub.isEmpty
  | c :: rest => sub.isPrefixOf (c :: rest) || listContainsSub sub rest

/-- Python `sub in s` for strings. -/
def strContains (s sub : String) : Bool :=
  listContainsSub sub.data s.data

/-- Python `str.lower()` (ASCII case fold, which is all the code needs),
written over the character list so that it reduces inside the kernel. -/
def lowerStr (s : String) : String :=
  ⟨s.data.map Char.toLower⟩

/-- Split a character list at every occurrence of a separator. -/
def splitOnCharList (sep : Char) : List Char → List (List Char)
  | [] => [[]]
  | c :: rest =>
    if c = sep then [] :: splitOnCharList sep rest
    else
      match splitOnCharList sep rest with
      | [] => [[c]]
      | h :: t => (c :: h) :: t

/-- Python `s.split(sep)` for a one-character separator, written over the
character list so that it reduces inside the kernel. -/
def strSplitOn (s : String) (sep : Char) : List String :=
  (splitOnCharList sep s.data).map fun cs => ⟨cs⟩

/-- Python `int(s)` on a decimal digit string, `none` where `int` raises
(kernel-reducible replacement for `String.toNat?`). -/
def strToNat? (s : String) : Option Nat :=
  if s.data.isEmpty then none
  else if s.data.all Char.isDigit then
    some (s.data.foldl (fun n c => n * 10 + (c.toNat - 48)) 0)
  else none

/-! ## Correlation engine (`src/services/correlation_engine.py`)

A detection row as read by `fetch_new_detections`: only the columns and
metadata keys inspected by `classify_detection_group` are carried.
`rpkiDescription` models `metadata['rpki_description']` (empty string
when absent) and `triggeredRules` models `metadata['triggered_rules']`
(empty list when absent). -/

structure CorrRow where
  eventType : String
  rpkiStatus : String
  combinedSeverity : String
  rpkiDescription : String
  triggeredRules : List String
deriving Repr, DecidableEq

/-- `severity_order` dictionary of `classify_detection_group`
(unknown severities map to 0, as `dict.get(x, 0)` does). -/
def sevOrderNat (s : String) : Nat :=
  if s = "low" then 1
  else if s = "medium" then 2
  else if s = "high" then 3
  else if s = "critical" then 4
  else 0

/-- `max(detections_df['combined_severity'].apply(...))`: the greatest
severity rank in the group (0 for the empty group, where Python `max`
would instead raise). -/
def maxSeverityNat (g : List CorrRow) : Nat :=
  (g.map fun d => sevOrderNat d.combinedSeverity).foldl Nat.max 0

/-- `[k for k, v in severity_order.items() if v == max_severity][0]`:
the severity label whose rank is `n`; `none` models the `IndexError`
raised when no label has that rank. -/
def sevLabelOfNat (n : Nat) : Option String :=
  if n = 1 then some "low"
  else if n = 2 then some "medium"
  else if n = 3 then some "high"
  else if n = 4 then some "critical"
  else none

/-- `source_count = len(detections_df['event_type'].unique())`. -/
def sourceCount (g : List CorrRow) : Nat :=
  ((g.map fun d => d.eventType).eraseDups).length

/-- `has_rpki_invalid`: some rpki-source row with `rpki_status == 'invalid'`. -/
def hasRpkiInvalid (g : List CorrRow) : Bool :=
  g.any fun d => d.eventType == "rpki" && d.rpkiStatus == "invalid"

/-- `has_rpki_origin_mismatch`: some rpki row with `rpki_status == 'invalid'`
whose lowered `rpki_description` contains `origin as mismatch` or `hijack`
(the loop in `classify_detection_group` only scans `rpki_invalid` rows). -/
def hasRpkiOriginMismatch (g : List CorrRow) : Bool :=
  g.any fun d =>
    d.eventType == "rpki" && d.rpkiStatus == "invalid" &&
      (strContains (lowerStr d.rpkiDescription) "origin as mismatch" ||
       strContains (lowerStr d.rpkiDescription) "hijack")

/-- `has_rpki_maxlength`: some rpki row with `rpki_status == 'invalid'`
whose lowered `rpki_description` contains `maxlength` or `leak`
(again scanned only over the `rpki_invalid` subset). -/
def hasRpkiMaxlength (g : List CorrRow) : Bool :=
  g.any fun d =>
    d.eventType == "rpki" && d.rpkiStatus == "invalid" &&
      (strContains (lowerStr d.rpkiDescription) "maxlength" ||
       strContains (lowerStr d.rpkiDescription) "leak")

/-- `has_heuristic`: the group holds a heuristic-source row. -/
def hasHeuristic (g : List CorrRow) : Bool :=
  g.any fun d => d.eventType == "heuristic"

/-- `has_path_inflation`: some heuristic row whose
`metadata['triggered_rules']` list holds the value `'path_inflation'`. -/
def hasPathInflation (g : List CorrRow) : Bool :=
  g.any fun d => d.eventType == "heuristic" && d.triggeredRules.contains "path_inflation"

/-- Result quadruple of `classify_detection_group`. -/
structure GroupResult where
  classification : String
  finalSeverity : String
  srcCount : Nat
  reasoning : String
deriving Repr, DecidableEq

/-- `classify_detection_group` (correlation_engine.py lines 160-266).
Returns `none` where the Python function raises (`IndexError` from the
severity-label lookup when every severity in the group is unrecognised). -/
def classify_detection_group (g : List CorrRow) : Option GroupResult :=
  match sevLabelOfNat (maxSeverityNat g) with
  | none => none
  | some maxSevLabel =>
    if hasRpkiOriginMismatch g then
      some ⟨"HIJACK", "critical", sourceCount g,
        "RPKI Origin AS mismatch detected - hijack signal"⟩
    else if hasRpkiMaxlength g && hasPathInflation g then
      some ⟨"LEAK", "critical", sourceCount g,
        "RPKI MaxLength violation + Path inflation - route leak"⟩
    else if hasRpkiMaxlength g then
      some ⟨"LEAK", "high", sourceCount g,
        "RPKI MaxLength violation - potential route leak"⟩
    else if hasRpkiInvalid g && hasHeuristic g then
      some ⟨"INVALID", "high", sourceCount g,
        "RPKI invalid + Heuristic anomalies detected"⟩
    else if hasRpkiInvalid g then
      some ⟨"INVALID", "high", sourceCount g, "RPKI validation failed"⟩
    else if 4 ≤ sourceCount g then
      some ⟨"SUSPICIOUS", "critical", sourceCount g,
        "Severe systemic issue - " ++ toString (sourceCount g) ++ " detection sources"⟩
    else if sourceCount g = 3 then
      some ⟨"SUSPICIOUS", "high", sourceCount g,
        "Broad evidence - 3 detection sources"⟩
    else if sourceCount g = 2 then
      some ⟨"SUSPICIOUS", "medium", sourceCount g,
        "Stronger evidence - 2 detection sources"⟩
    else if sourceCount g = 1 then
      if maxSevLabel = "high" ∨ maxSevLabel = "critical" then
        some ⟨"SUSPICIOUS", maxSevLabel, sourceCount g,
          "Single detector with " ++ maxSevLabel ++ " severity"⟩
      else
        some ⟨"NORMAL", maxSevLabel, sourceCount g,
          "Single weak signal - informational"⟩
    else
      some ⟨"NORMAL", "low", sourceCount g, "No significant anomaly"⟩

/-! ## RPKI validator service (`src/services/rpki_validator_service.py`) -/

/-- Configuration constant `REQUEST_TIMEOUT` (seconds per Routinator call). -/
def REQUEST_TIMEOUT : Nat := 5

/-- Configuration constant `MAX_RETRIES` (Routinator attempt budget). -/
def MAX_RETRIES : Nat := 3

/-- One VRP entry of the validator response (`vrps.matched` /
`vrps.unmatched` items). `asn` and `maxLength` are `none` when the JSON
key is absent or null; Python truthiness also rejects the value 0, which
the theorems account for explicitly. -/
structure Vrp where
  asn : Option Int
  maxLength : Option Int
deriving Repr, DecidableEq

/-- The parsed Routinator payload as `validate_rpki` reads it:
`validated_route.validity.state` (default `'unknown'`),
`validity.reason` (default `''`), and the two VRP lists. -/
structure RoutResp where
  state : String
  reason : String
  matched : List Vrp
  unmatched : List Vrp
deriving Repr, DecidableEq

/-- Outcome of one HTTP GET against the Routinator API. -/
inductive HttpOutcome where
  | timeout
  | connError
  | httpResp (code : Nat) (body : RoutResp)
deriving Repr, DecidableEq

/-- The `for attempt in range(MAX_RETRIES)` loop body of
`query_routinator_api`: `fuel` is the number of attempts left and `i`
indexes the outcome of the i-th HTTP request. 200 returns the body,
503 sleeps and retries, any other status returns nothing, a timeout
retries, a connection error returns nothing; an exhausted budget
returns nothing. -/
def queryLoop (outcomes : Nat → HttpOutcome) : Nat → Nat → Option RoutResp
  | 0, _ => none
  | fuel + 1, i =>
    match outcomes i with
    | .httpResp code body =>
      if code = 200 then some body
      else if code = 503 then queryLoop outcomes fuel (i + 1)
      else none
    | .timeout => queryLoop outcomes fuel (i + 1)
    | .connError => none

/-- `query_routinator_api`, abstracted over the sequence of outcomes of
the HTTP requests it issues (each with timeout `REQUEST_TIMEOUT`). -/
def query_routinator_api (outcomes : Nat → HttpOutcome) : Option RoutResp :=
  queryLoop outcomes MAX_RETRIES 0

/-- Number of HTTP requests the loop of `query_routinator_api` issues. -/
def queryRequests (outcomes : Nat → HttpOutcome) : Nat → Nat → Nat
  | 0, _ => 0
  | fuel + 1, i =>
    match outcomes i with
    | .httpResp code _ =>
      if code = 200 then 1
      else if code = 503 then 1 + queryRequests outcomes fuel (i + 1)
      else 1
    | .timeout => 1 + queryRequests outcomes fuel (i + 1)
    | .connError => 1

/-- Total number of HTTP requests `query_routinator_api` issues. -/
def query_routinator_requests (outcomes : Nat → HttpOutcome) : Nat :=
  queryRequests outcomes MAX_RETRIES 0

/-- `get_prefix_length`: the integer after the slash of a CIDR string,
`none` where the Python `except` path returns `None`. -/
def get_prefix_length (s : String) : Option Nat :=
  ((strSplitOn s '/')[1]?).bind strToNat?

/-- An emitted RPKI result: the `(validity_state, severity, description,
vrps)` tuple returned by `validate_rpki` when a detection is due. -/
structure RpkiResult where
  validityState : String
  severity : String
  description : String
  vrps : List Vrp × List Vrp
deriving Repr, DecidableEq

/-- The `roa_origins` list of `validate_rpki`: ASNs found in matched or
unmatched VRPs that are truthy (present and nonzero) and differ from
the announced origin. -/
def roaOrigins (originAs : Int) (matched unmatched : List Vrp) : List Int :=
  (matched ++ unmatched).filterMap fun v =>
    match v.asn with
    | some a => if a ≠ 0 ∧ a ≠ originAs then some a else none
    | none => none

/-- The matched-VRP scan of the MaxLength branch: the first matched VRP
whose `max_length` is truthy and strictly below the announced prefix
length. -/
def firstMaxLenViolation (pfxLen : Nat) (matched : List Vrp) : Option Int :=
  matched.findSome? fun v =>
    match v.maxLength with
    | some m => if m ≠ 0 ∧ (pfxLen : Int) > m then some m else none
    | none => none

/-- `validate_rpki` (rpki_validator_service.py lines 254-345), abstracted
over the parsed API response (`none` models both an unreachable API and
the invalid-prefix early return). Returns `none` when no detection is
emitted. -/
def validate_rpki (originAs : Int) (pfxLen : Option Nat)
    (apiResponse : Option RoutResp) : Option RpkiResult :=
  match pfxLen with
  | none => none
  | some pfxLen =>
    match apiResponse with
    | none => none
    | some resp =>
      if resp.state = "valid" then none
      else if resp.state = "invalid" then
        let reasonL := lowerStr resp.reason
        if (strContains reasonL "as" || strContains reasonL "origin") &&
            !(roaOrigins originAs resp.matched resp.unmatched).isEmpty then
          some ⟨"invalid", "critical",
            "Origin AS mismatch: announced AS" ++ toString originAs ++
              ", ROA expects AS" ++
              toString ((roaOrigins originAs resp.matched resp.unmatched).headD 0) ++
              " - HIJACK SIGNAL",
            (resp.matched, resp.unmatched)⟩
        else if (strContains reasonL "length" || strContains reasonL "max") &&
            (firstMaxLenViolation pfxLen resp.matched).isSome then
          some ⟨"invalid", "high",
            "MaxLength violation: prefix /" ++ toString pfxLen ++
              " exceeds max_length /" ++
              toString ((firstMaxLenViolation pfxLen resp.matched).getD 0) ++
              " - LEAK/CONFIG ERROR",
            (resp.matched, resp.unmatched)⟩
        else
          some ⟨"invalid", "high", "RPKI invalid: " ++ resp.reason,
            (resp.matched, resp.unmatched)⟩
      else if resp.state = "not-found" ∨ resp.state = "unknown" then
        some ⟨"unknown", "low",
          "No ROA found - INFORMATIONAL", (resp.matched, resp.unmatched)⟩
      else none

/-- `get_severity_score`: severity label to the 1-10 `combined_score`. -/
def get_severity_score (severity : String) : Nat :=
  if lowerStr severity = "critical" then 10
  else if lowerStr severity = "high" then 7
  else if lowerStr severity = "medium" then 5
  else if lowerStr severity = "low" then 2
  else 5

/-- A feature row as the RPKI detector reads it from `bgp_features_1min`
(window stamps are seconds since the epoch throughout the embedding). -/
structure RpkiFeatureRow where
  windowStart : Nat
  pfx : String
  originAs : Int
deriving Repr, DecidableEq

/-- A row of `hybrid_anomaly_detections` as written by
`insert_rpki_detection` (the columns the claims inspect). -/
structure RpkiDetRow where
  detectionId : String
  windowStart : Nat
  pfx : String
  originAs : Int
  rpkiStatus : String
  combinedScore : Nat
  combinedSeverity : String
  rpkiDescription : String
deriving Repr, DecidableEq

/-- `insert_rpki_detection`: upsert with `ON CONFLICT (detection_id) DO
NOTHING`; the detection id is `rpki_` + timestamp + prefix + origin. -/
def insert_rpki_detection (tbl : List RpkiDetRow) (row : RpkiFeatureRow)
    (r : RpkiResult) : List RpkiDetRow :=
  let det : RpkiDetRow :=
    { detectionId := "rpki_" ++ toString row.windowStart ++ "_" ++ row.pfx ++
        "_" ++ toString row.originAs
      windowStart := row.windowStart
      pfx := row.pfx
      originAs := row.originAs
      rpkiStatus := r.validityState
      combinedScore := get_severity_score r.severity
      combinedSeverity := r.severity
      rpkiDescription := r.description }
  if tbl.any fun d => d.detectionId = det.detectionId then tbl else tbl ++ [det]

/-- The body of `process_feature_rows` for one feature row: run
`validate_rpki` (with the outcomes its API calls would see) and insert
a detection only when a result is returned. -/
def rpkiProcessRow (outcomes : Nat → HttpOutcome) (tbl : List RpkiDetRow)
    (row : RpkiFeatureRow) : List RpkiDetRow :=
  match validate_rpki row.originAs (get_prefix_length row.pfx)
      (query_routinator_api outcomes) with
  | none => tbl
  | some r => insert_rpki_detection tbl row r

/-- The `rpki_inference_state` row. -/
structure RpkiStateRow where
  lastProcessedTimestamp : Option Nat
  totalProcessed : Nat
deriving Repr, DecidableEq

/-- Number of `%s` placeholders in the UPDATE statement that
`update_state` of the RPKI service sends (two: the timestamp and the
processed count). -/
def rpkiUpdateStatePlaceholders : Nat := 2

/-- Number of parameters the `cur.execute` call in `update_state` of the
RPKI service supplies: the call passes the SQL string alone, with no
parameter tuple. -/
def rpkiUpdateStateParams : Nat := 0

/-- `update_state` (rpki_validator_service.py lines 121-136): the UPDATE
runs only when every `%s` placeholder receives a parameter; otherwise the
statement fails, the `except` branch logs and rolls back, and the state
row is left unchanged. -/
def rpki_update_state (st : RpkiStateRow) (lastTimestamp : Nat)
    (processedCount : Nat) : RpkiStateRow :=
  if rpkiUpdateStateParams = rpkiUpdateStatePlaceholders then
    { lastProcessedTimestamp := some lastTimestamp
      totalProcessed := st.totalProcessed + processedCount }
  else
    st

/-- The tail of one `main` iteration of the RPKI service over a fetched
non-empty batch: process the rows, then call `update_state` with the
maximum `window_start` of the batch. Returns the new state row. -/
def rpkiMainStateAfterBatch (st : RpkiStateRow) (batch : List RpkiFeatureRow) :
    RpkiStateRow :=
  rpki_update_state st ((batch.map fun r => r.windowStart).foldl Nat.max 0)
    batch.length

/-! ## ML inference service (`src/services/ml_inference_service.py`)

Scores are modelled over `ℚ`; the baseline statistics are the hardcoded
constants of `load_models_and_baseline`. -/

/-- Baseline `isolation_forest.mean = -0.14`. -/
def isoMean : ℚ := -14/100

/-- Baseline `isolation_forest.std = 0.012`. -/
def isoStd : ℚ := 12/1000

/-- Baseline `lstm.mean = 13.99`. -/
def lstmMean : ℚ := 1399/100

/-- Baseline `lstm.std = 2.68`. -/
def lstmStd : ℚ := 268/100

/-- Default `ANOMALY_THRESHOLD` (env default `"3.0"`). -/
def ANOMALY_THRESHOLD : ℚ := 3

/-- Isolation-Forest z-score of `compute_z_score_ensemble`:
`(iso_raw - iso_mean) / iso_std` guarded by `iso_std > 0`, then negated
because smaller decision scores are more anomalous. -/
def mlZIso (isoRaw : ℚ) : ℚ :=
  -(if isoStd > 0 then (isoRaw - isoMean) / isoStd else 0)

/-- LSTM z-score: `(lstm_raw - lstm_mean) / lstm_std` guarded by
`lstm_std > 0`. -/
def mlZLstm (lstmRaw : ℚ) : ℚ :=
  if lstmStd > 0 then (lstmRaw - lstmMean) / lstmStd else 0

/-- Ensemble combination: `max` when `ENSEMBLE_METHOD == "max"`, else the
average. -/
def mlCombined (method : String) (zIso zLstm : ℚ) : ℚ :=
  if method = "max" then max zIso zLstm else (zIso + zLstm) / 2

/-- Anomaly flag: `combined >= ANOMALY_THRESHOLD`. -/
def mlAnomaly (combined : ℚ) : Bool :=
  combined ≥ ANOMALY_THRESHOLD

/-- Severity bucketing of `compute_z_score_ensemble` (the first two
branches both yield `low`, exactly as in the source). -/
def mlSeverity (combined : ℚ) : String :=
  if combined < 2 then "low"
  else if combined < 3 then "low"
  else if combined < 4 then "medium"
  else if combined < 5 then "high"
  else "critical"

/-! ## Feature aggregator (`src/services/feature_aggregator.py`) -/

/-- Modelled from the spec: `public.floor_to_1min` is a SQL function
defined in `schema.sql`, which is not under `src/`; per section 4.2 of
the specification it truncates a timestamp to the start of its minute. -/
def floor_to_1min (t : Nat) : Nat :=
  t / 60 * 60

/-- A raw update row of `ip_rib` joined (LEFT JOIN on
`base_attr_hash_id`) with its `base_attrs` row: `asPathCount` is the
joined `ba.as_path_count`, `none` when no `base_attrs` row matches or
the column is null. -/
structure IpRibRow where
  timestamp : Nat
  pfx : String
  originAs : Nat
  iswithdrawn : Bool
  peerHashId : Nat
  asPathCount : Option ℚ
deriving Repr, DecidableEq

/-- A materialised row of `bgp_features_1min`; `id` is the `bigserial`
key the INSERT assigns. -/
structure FeatureRow where
  id : Nat
  windowStart : Nat
  windowEnd : Nat
  pfx : String
  originAs : Nat
  announcements : Nat
  withdrawals : Nat
  totalUpdates : Nat
  withdrawalRatio : ℚ
  flapCount : Nat
  pathLength : ℚ
  uniquePeers : Nat
  messageRate : ℚ
  sessionResets : Nat
deriving Repr, DecidableEq

/-- The scan predicate of `aggregate_once`:
`r.timestamp > from_ts AND r.timestamp <= to_ts`. -/
def inScan (fromTs toTs : Nat) (r : IpRibRow) : Bool :=
  fromTs < r.timestamp && r.timestamp ≤ toTs

/-- The rows falling into the aggregation group keyed by
`(floor_to_1min(timestamp), prefix, origin_as)` inside the scanned
interval. -/
def aggGroup (updates : List IpRibRow) (fromTs toTs w : Nat) (p : String)
    (o : Nat) : List IpRibRow :=
  updates.filter fun r =>
    inScan fromTs toTs r && floor_to_1min r.timestamp == w &&
      r.pfx == p && r.originAs == o

/-- The SELECT list of `aggregate_once` evaluated on one group: the nine
features of one inserted `bgp_features_1min` row (id attached later by
the insert). -/
def featuresFor (updates : List IpRibRow) (fromTs toTs w : Nat) (p : String)
    (o : Nat) : FeatureRow :=
  let g := aggGroup updates fromTs toTs w p o
  let ann := (g.filter fun r => !r.iswithdrawn).length
  let wd := (g.filter fun r => r.iswithdrawn).length
  let pathVals := g.filterMap fun r => r.asPathCount
  { id := 0
    windowStart := w
    windowEnd := w + 60
    pfx := p
    originAs := o
    announcements := ann
    withdrawals := wd
    totalUpdates := g.length
    withdrawalRatio := (wd : ℚ) / ((max ann 1 : Nat) : ℚ)
    flapCount := (wd + ann) / 2
    pathLength :=
      if pathVals.isEmpty then 2 + ((o % 3 : Nat) : ℚ)
      else pathVals.sum / pathVals.length
    uniquePeers := ((g.map fun r => r.peerHashId).eraseDups).length
    messageRate := (g.length : ℚ) / 60
    sessionResets := 0 }

/-- The distinct `(window_start, prefix, origin_as)` triples produced by
the GROUP BY over the scanned interval. -/
def aggKeys (updates : List IpRibRow) (fromTs toTs : Nat) :
    List (Nat × String × Nat) :=
  ((updates.filter (inScan fromTs toTs)).map fun r =>
    (floor_to_1min r.timestamp, r.pfx, r.originAs)).eraseDups

/-- The batch of feature rows the INSERT..SELECT of `aggregate_once`
produces for one scan, before ids are attached. -/
def newFeatureRows (updates : List IpRibRow) (fromTs toTs : Nat) :
    List FeatureRow :=
  (aggKeys updates fromTs toTs).map fun k =>
    featuresFor updates fromTs toTs k.1 k.2.1 k.2.2

/-- `aggregate_once` (feature_aggregator.py lines 159-223): plain INSERT
of the grouped SELECT into `bgp_features_1min` — the statement carries no
ON CONFLICT clause and `ensure_tables` declares no uniqueness over
`(window_start, prefix, origin_as)`, so every produced row is appended
to the table with a fresh serial id. -/
def aggregate_once (tbl : List FeatureRow) (updates : List IpRibRow)
    (fromTs toTs : Nat) : List FeatureRow :=
  tbl ++ ((newFeatureRows updates fromTs toTs).enum.map fun ri =>
    { ri.2 with id := tbl.length + 1 + ri.1 })

/-! ## Heuristic detector (`src/services/heuristic_detector.py`) -/

/-- Result of one heuristic rule (`HeuristicHit` dataclass). -/
structure HeuristicHit where
  ruleName : String
  severity : String
  score : ℚ
  reason : String
deriving Repr, DecidableEq

/-- Bogon ASN ranges (`BOGON_ASN_RANGES`). -/
def BOGON_ASN_RANGES : List (Nat × Nat) :=
  [(64512, 65534), (4200000000, 4294967294)]

/-- Bogon prefix list (`BOGON_PREFIXES`). -/
def BOGON_PREFIXES : List String :=
  ["0.0.0.0/8", "10.0.0.0/8", "100.64.0.0/10", "127.0.0.0/8",
   "169.254.0.0/16", "172.16.0.0/12", "192.0.0.0/24", "192.0.2.0/24",
   "192.168.0.0/16", "198.18.0.0/15", "198.51.100.0/24", "203.0.113.0/24",
   "224.0.0.0/4", "240.0.0.0/4", "255.255.255.255/32"]

/-- One dotted-quad octet: a decimal number at most 255. -/
def parseOctet (s : String) : Option Nat :=
  (strToNat? s).bind fun n => if n ≤ 255 then some n else none

/-- Parse a dotted-quad IPv4 address to its 32-bit value. -/
def parseIPv4 (s : String) : Option Nat :=
  match ((strSplitOn s '.').mapM parseOctet) with
  | some [a, b, c, d] => some (((a * 256 + b) * 256 + c) * 256 + d)
  | _ => none

/-- Keep the top `len` bits of a 32-bit address (network part). -/
def maskTo (addr len : Nat) : Nat :=
  addr / 2 ^ (32 - len) * 2 ^ (32 - len)

/-- `ipaddress.ip_network(s, strict=False)` restricted to IPv4: the
masked network address and the prefix length. A bare address is a /32.
`none` models the exception path (also taken for IPv6 input, where the
later cross-version `overlaps` raises and the rule returns nothing). -/
def ip_network (s : String) : Option (Nat × Nat) :=
  match strSplitOn s '/' with
  | [a] => (parseIPv4 a).map fun v => (maskTo v 32, 32)
  | [a, l] =>
    (parseIPv4 a).bind fun v =>
      (strToNat? l).bind fun len =>
        if len ≤ 32 then some (maskTo v len, len) else none
  | _ => none

/-- `IPv4Network.overlaps`: two networks share addresses exactly when
they agree on the first `min` of the two prefix lengths. -/
def netOverlaps (n1 n2 : Nat × Nat) : Bool :=
  let l := min n1.2 n2.2
  maskTo n1.1 l == maskTo n2.1 l

/-- `check_churn`: `total_updates * 60` against thresholds
1212 / 6012 / 24000 per hour. -/
def check_churn (row : FeatureRow) : Option HeuristicHit :=
  let churnPerHour := row.totalUpdates * 60
  if churnPerHour > 24000 then
    some ⟨"churn_critical", "critical", 95/100,
      "total_updates exceeds critical threshold 24000/hr"⟩
  else if churnPerHour > 6012 then
    some ⟨"churn_severe", "high", 8/10,
      "total_updates exceeds severe threshold 6012/hr"⟩
  else if churnPerHour > 1212 then
    some ⟨"churn_moderate", "medium", 6/10,
      "total_updates exceeds moderate threshold 1212/hr"⟩
  else none

/-- `check_withdrawal_ratio`: ratio and hourly withdrawal volume must
both be high. -/
def check_withdrawal_ratio (row : FeatureRow) : Option HeuristicHit :=
  let withdrawalsPerHour := row.withdrawals * 60
  if row.withdrawalRatio ≥ mkRat 9 10 ∧ withdrawalsPerHour > 300 then
    some ⟨"withdrawal_storm_critical", "critical", 95/100,
      "withdrawal storm detected"⟩
  else if row.withdrawalRatio ≥ mkRat 7 10 ∧ withdrawalsPerHour > 600 then
    some ⟨"withdrawal_storm_high", "high", 8/10,
      "high withdrawal activity"⟩
  else none

/-- `check_flapping`: `flap_count * 60` against 132 / 372 / 1200 per
hour. -/
def check_flapping (row : FeatureRow) : Option HeuristicHit :=
  let flapPerHour := row.flapCount * 60
  if flapPerHour > 1200 then
    some ⟨"flap_critical", "critical", 95/100,
      "flap_count exceeds critical threshold 1200/hr"⟩
  else if flapPerHour > 372 then
    some ⟨"flap_high", "high", 8/10,
      "flap_count exceeds high threshold 372/hr"⟩
  else if flapPerHour > 132 then
    some ⟨"flap_medium", "medium", 6/10,
      "flap_count exceeds medium threshold 132/hr"⟩
  else none

/-- `check_path_length`: path length above 25 is severe, above 16 mild
(the column is non-null for every row the aggregator writes, so the
`None` guard of the source never fires on this model). -/
def check_path_length (row : FeatureRow) : Option HeuristicHit :=
  if row.pathLength > 25 then
    some ⟨"path_length_severe", "high", 85/100,
      "path_length exceeds severe threshold 25"⟩
  else if row.pathLength > 16 then
    some ⟨"path_length_mild", "medium", 6/10,
      "path_length exceeds mild threshold 16"⟩
  else none

/-- `check_bogon_asn`: origin inside one of the private-use ranges. -/
def check_bogon_asn (row : FeatureRow) : Option HeuristicHit :=
  if BOGON_ASN_RANGES.any fun se => se.1 ≤ row.originAs && row.originAs ≤ se.2 then
    some ⟨"bogon_asn_critical", "critical", 95/100,
      "origin_as is in a private or reserved range"⟩
  else none

/-- `check_bogon_prefix`: the announced network overlaps one of the
reserved CIDRs; parse failure returns nothing. -/
def check_bogon_prefix (row : FeatureRow) : Option HeuristicHit :=
  if row.pfx = "" then none
  else
    match ip_network row.pfx with
    | none => none
    | some announced =>
      if BOGON_PREFIXES.any fun b =>
          match ip_network b with
          | some bogon => netOverlaps announced bogon
          | none => false then
        some ⟨"bogon_prefix_critical", "critical", 95/100,
          "prefix overlaps a reserved bogon range"⟩
      else none

/-- The 7-day baseline query of `check_path_inflation`:
`AVG(path_length)` over rows of the same `(prefix, origin_as)` whose
`window_start` lies between 7 days and 1 hour before the given window. -/
def pathInflationBaseline (tbl : List FeatureRow) (p : String) (o : Nat)
    (ws : Nat) : Option ℚ :=
  let vals := (tbl.filter fun r =>
    r.pfx == p && r.originAs == o &&
      (ws : Int) - 604800 ≤ (r.windowStart : Int) &&
      (r.windowStart : Int) ≤ (ws : Int) - 3600).map fun r => r.pathLength
  if vals.isEmpty then none else some (vals.sum / vals.length)

/-- `check_path_inflation`: compares the current path length against the
7-day baseline; the leading `all([...])` truthiness guard skips rows
with an empty prefix, origin 0 or path length 0. -/
def check_path_inflation (row : FeatureRow) (tbl : List FeatureRow) :
    Option HeuristicHit :=
  if row.pfx = "" ∨ row.originAs = 0 ∨ row.pathLength = 0 then none
  else
    match pathInflationBaseline tbl row.pfx row.originAs row.windowStart with
    | none => none
    | some baseline =>
      let delta := row.pathLength - baseline
      if delta > 10 then
        some ⟨"path_inflation_critical", "critical", 95/100,
          "path length increased by more than 10 hops over baseline"⟩
      else if delta > 5 then
        some ⟨"path_inflation_high", "high", 8/10,
          "path length increased by more than 5 hops over baseline"⟩
      else none

/-- `check_volume_spike`: message rate above 100000 / 500000 per
minute. -/
def check_volume_spike (row : FeatureRow) : Option HeuristicHit :=
  if row.messageRate > 500000 then
    some ⟨"volume_spike_critical", "critical", 95/100,
      "message_rate exceeds critical threshold 500000"⟩
  else if row.messageRate > 100000 then
    some ⟨"volume_spike_high", "high", 85/100,
      "message_rate exceeds high threshold 100000"⟩
  else none

/-- `check_session_resets` (heuristic_detector.py lines 430-460):
strictly more than 50 resets is critical, at least 11 is high, at least
6 is medium. -/
def check_session_resets (row : FeatureRow) : Option HeuristicHit :=
  if row.sessionResets > 50 then
    some ⟨"session_resets_critical", "critical", 95/100,
      "session_resets exceeds critical threshold 50"⟩
  else if row.sessionResets ≥ 11 then
    some ⟨"session_resets_high", "high", 85/100,
      "session_resets exceeds high threshold 11"⟩
  else if row.sessionResets ≥ 6 then
    some ⟨"session_resets_medium", "medium", 6/10,
      "session_resets exceeds medium threshold 6"⟩
  else none

/-- `apply_heuristics`: the nine rules in source order, dropping the
checks that return nothing. -/
def apply_heuristics (row : FeatureRow) (tbl : List FeatureRow) :
    List HeuristicHit :=
  [check_churn row, check_withdrawal_ratio row, check_flapping row,
   check_path_length row, check_bogon_asn row, check_bogon_prefix row,
   check_path_inflation row tbl, check_volume_spike row,
   check_session_resets row].filterMap id

/-- Deterministic stand-in for the first 32 hex digits of a SHA-256
digest. The digest is a fixed function of its input string; keeping the
key string itself preserves exactly the property the code relies on —
equal inputs give equal ids — without embedding the hash rounds. -/
def sha256hex32 (data : String) : String := data

/-- `generate_detection_id` (heuristic_detector.py lines 486-489). -/
def generate_detection_id (windowStart : Nat) (pfx : String)
    (originAs : Nat) : String :=
  "heur_" ++ sha256hex32
    ("heuristic_" ++ toString windowStart ++ "_" ++ pfx ++ "_" ++
      toString originAs)

/-- Severity ranks of `get_max_severity`. -/
def heurSevRank (s : String) : Nat :=
  if s = "critical" then 4
  else if s = "high" then 3
  else if s = "medium" then 2
  else if s = "low" then 1
  else 0

/-- `get_max_severity`: severity of the first hit attaining the maximal
rank (Python `max` keeps the first among equals); `""` stands for the
error the source would raise on an empty list, which no caller reaches. -/
def get_max_severity (hits : List HeuristicHit) : String :=
  match hits with
  | [] => ""
  | h :: t =>
    (t.foldl (fun best x =>
      if heurSevRank x.severity > heurSevRank best.severity then x else best)
      h).severity

/-- `determine_classification`: `multi_rule` for two or more hits, else a
label keyed on substrings of the single rule name. -/
def determine_classification (hits : List HeuristicHit) : String :=
  match hits with
  | [] => "unknown"
  | h :: t =>
    if t.length + 1 > 1 then "multi_rule"
    else if strContains h.ruleName "churn" then "churn_spike"
    else if strContains h.ruleName "withdrawal" then "withdrawal_burst"
    else if strContains h.ruleName "flap" then "route_flap"
    else if strContains h.ruleName "path_length" then "path_anomaly"
    else if strContains h.ruleName "path_inflation" then "path_inflation"
    else if strContains h.ruleName "bogon_asn" then "bogon_asn"
    else if strContains h.ruleName "bogon_prefix" then "bogon_prefix"
    else if strContains h.ruleName "volume_spike" then "volume_spike"
    else if strContains h.ruleName "session_resets" then "session_instability"
    else "unknown"

/-- A heuristic detection row (the columns and metadata keys the claims
touch; `triggeredRules` carries the `rule_name` of each firing rule). -/
structure HeurDetection where
  detectionId : String
  windowStart : Nat
  pfx : String
  originAs : Nat
  combinedScore : ℚ
  combinedSeverity : String
  classification : String
  triggeredRules : List String
deriving Repr, DecidableEq

/-- The detection record `process_feature_rows` builds for one feature
row, or nothing when no rule fires. -/
def heurDetectionFor (tbl : List FeatureRow) (row : FeatureRow) :
    Option HeurDetection :=
  match apply_heuristics row tbl with
  | [] => none
  | hit :: rest =>
    some { detectionId := generate_detection_id row.windowStart row.pfx row.originAs
           windowStart := row.windowStart
           pfx := row.pfx
           originAs := row.originAs
           combinedScore := rest.foldl (fun m x => max m x.score) hit.score
           combinedSeverity := get_max_severity (hit :: rest)
           classification := determine_classification (hit :: rest)
           triggeredRules := (hit :: rest).map fun x => x.ruleName }

/-- `insert_detection` (heuristic_detector.py lines 567-615): the INSERT
is upsert-on-`detection_id`; every database error (`dbError`) is caught
and logged, so the call always returns and on error the table is simply
left unchanged. -/
def insert_detection (tbl : List HeurDetection) (det : HeurDetection)
    (dbError : Bool) : List HeurDetection :=
  if dbError then tbl
  else if tbl.any fun d => d.detectionId = det.detectionId then
    tbl.map fun d =>
      if d.detectionId = det.detectionId then
        { d with combinedScore := det.combinedScore
                 combinedSeverity := det.combinedSeverity
                 triggeredRules := det.triggeredRules
                 classification := d.classification
                 windowStart := det.windowStart }
      else d
  else tbl ++ [det]

/-- `process_feature_rows` (heuristic_detector.py lines 618-695): walk the
batch, insert a detection per row with at least one hit (`dbErrors i`
tells whether the insert of the i-th row hits a database error) and count
every attempted insert, errors included. -/
def heurProcessGo (tbl : List FeatureRow) (dbErrors : Nat → Bool) :
    List HeurDetection → List FeatureRow → Nat → List HeurDetection × Nat
  | detTbl, [], _ => (detTbl, 0)
  | detTbl, r :: rest, i =>
    match heurDetectionFor tbl r with
    | none => heurProcessGo tbl dbErrors detTbl rest (i + 1)
    | some det =>
      let step := heurProcessGo tbl dbErrors
        (insert_detection detTbl det (dbErrors i)) rest (i + 1)
      (step.1, step.2 + 1)

/-- `process_feature_rows` over a fetched batch. -/
def heuristic_process_feature_rows (tbl : List FeatureRow)
    (dbErrors : Nat → Bool) (detTbl : List HeurDetection)
    (df : List FeatureRow) : List HeurDetection × Nat :=
  heurProcessGo tbl dbErrors detTbl df 0

/-- The `heuristic_inference_state` row. -/
structure HeurStateRow where
  lastProcessedTimestamp : Option Nat
  totalProcessed : Nat
deriving Repr, DecidableEq

/-- `get_last_processed_timestamp` of the heuristic detector: the stored
timestamp when the state row exists and is non-null; otherwise
`datetime.now(...)` — the current time, although the adjacent comment
reads `Default to 10 minutes ago`. `stateRow` is `none` when the row was
deleted, `some none` when the row exists with a null timestamp. -/
def heuristic_get_last_processed_timestamp (stateRow : Option (Option Nat))
    (now : Nat) : Nat :=
  match stateRow with
  | some (some ts) => ts
  | _ => now

/-- `update_state` of the heuristic detector (this one does pass its
parameters). -/
def heuristic_update_state (st : HeurStateRow) (lastTs : Nat)
    (processedCount : Nat) : HeurStateRow :=
  { lastProcessedTimestamp := some lastTs
    totalProcessed := st.totalProcessed + processedCount }

/-- `fetch_new_feature_rows`: rows with `window_start > last_ts` (the
ORDER BY does not change which rows are fetched). -/
def fetch_new_feature_rows (tbl : List FeatureRow) (lastTs : Nat) :
    List FeatureRow :=
  tbl.filter fun r => r.windowStart > lastTs

/-- Maximum `window_start` of a batch (`df['window_start'].max()`). -/
def maxWindowStart (df : List FeatureRow) : Nat :=
  (df.map fun r => r.windowStart).foldl Nat.max 0

/-- One iteration of the heuristic `main` loop: read the checkpoint,
fetch, process, and on a non-empty batch advance the state to the
maximum `window_start` fetched. Returns the detection table and the new
state row. -/
def heuristicMainIteration (tbl : List FeatureRow) (detTbl : List HeurDetection)
    (stateRow : Option HeurStateRow) (now : Nat) (dbErrors : Nat → Bool) :
    List HeurDetection × Option HeurStateRow :=
  let lastTs := heuristic_get_last_processed_timestamp
    (stateRow.map fun s => s.lastProcessedTimestamp) now
  let df := fetch_new_feature_rows tbl lastTs
  if df.isEmpty then (detTbl, stateRow)
  else
    let out := heuristic_process_feature_rows tbl dbErrors detTbl df
    (out.1, some (heuristic_update_state (stateRow.getD ⟨none, 0⟩)
      (maxWindowStart df) df.length))

/-- The batch one heuristic `main` iteration works on: the feature rows
fetched above the checkpoint read at the start of the iteration. -/
def heuristicBatch (tbl : List FeatureRow) (stateRow : Option HeurStateRow)
    (now : Nat) : List FeatureRow :=
  fetch_new_feature_rows tbl
    (heuristic_get_last_processed_timestamp
      (stateRow.map fun s => s.lastProcessedTimestamp) now)

/-! ## Helper lemmas -/

/-- A fold by `Nat.max` stays below a bound shared by the seed and every
element. -/
theorem foldl_max_le_of_forall_le (l : List Nat) (a b : Nat) (ha : a ≤ b)
    (h : ∀ x ∈ l, x ≤ b) : l.foldl Nat.max a ≤ b := by
  induction l generalizing a with
  | nil => simpa using ha
  | cons x t ih =>
    exact ih _ (by
      simp only [Nat.max_le]
      exact ⟨ha, h x (by simp)⟩) (fun y hy => h y (by simp [hy]))

/-- The seed of a `Nat.max` fold never exceeds the fold. -/
theorem init_le_foldl_max (l : List Nat) (a : Nat) : a ≤ l.foldl Nat.max a := by
  induction l generalizing a with
  | nil => exact Nat.le_refl _
  | cons x t ih => exact Nat.le_trans (Nat.le_max_left a x) (ih (Nat.max a x))

/-- Every element of a list is at most its `Nat.max` fold. -/
theorem le_foldl_max_of_mem {l : List Nat} {x : Nat} (a : Nat) (hx : x ∈ l) :
    x ≤ l.foldl Nat.max a := by
  induction l generalizing a with
  | nil => cases hx
  | cons y t ih =>
    rcases List.mem_cons.mp hx with h | h
    · subst h
      exact Nat.le_trans (Nat.le_max_right a x) (init_le_foldl_max t _)
    · exact ih _ h

/-- A list splits, lengthwise, into the part satisfying a predicate and
the part falsifying it. -/
theorem length_filter_not_add_length_filter (l : List α) (p : α → Bool) :
    (l.filter fun x => !p x).length + (l.filter p).length = l.length := by
  induction l with
  | nil => rfl
  | cons x t ih =>
    cases hx : p x <;> simp [List.filter_cons, hx, ← ih] <;> omega

/-- The severity ranks of `classify_detection_group` never exceed 4. -/
theorem sevOrderNat_le_four (s : String) : sevOrderNat s ≤ 4 := by
  unfold sevOrderNat
  split_ifs <;> omega

/-- The maximal severity rank of a group is at most 4. -/
theorem maxSeverityNat_le_four (g : List CorrRow) : maxSeverityNat g ≤ 4 := by
  unfold maxSeverityNat
  refine foldl_max_le_of_forall_le _ 0 4 (by omega) ?_
  intro x hx
  rcases List.mem_map.mp hx with ⟨d, _, rfl⟩
  exact sevOrderNat_le_four _

/-- `validate_rpki` without an API response never emits. -/
theorem validate_rpki_none (originAs : Int) (pl : Option Nat) :
    validate_rpki originAs pl none = none := by
  cases pl <;> rfl

/-- The retry loop of `query_routinator_api` issues at most as many
requests as it has budget. -/
theorem queryRequests_le_fuel (oc : Nat → HttpOutcome) (fuel i : Nat) :
    queryRequests oc fuel i ≤ fuel := by
  induction fuel generalizing i with
  | zero => exact Nat.le_refl _
  | succ n ih =>
    cases h : oc i with
    | timeout =>
      have := ih (i + 1)
      simp only [queryRequests, h]
      omega
    | connError =>
      simp only [queryRequests, h]
      omega
    | httpResp code body =>
      have := ih (i + 1)
      simp only [queryRequests, h]
      split_ifs <;> omega

/-! ## Claim theorems -/

/-- C2: the claim says the RPKI detector advances
`rpki_inference_state.last_processed_timestamp` to the maximum
`window_start` of every non-empty processed batch. The code disagrees:
the UPDATE in `update_state` is executed without its parameter tuple, the
statement fails, the `except` branch rolls back, and the state row is
left exactly as it was — for every batch and every starting state. -/
theorem rpki_update_state_never_advances (st : RpkiStateRow)
    (batch : List RpkiFeatureRow) : rpkiMainStateAfterBatch st batch = st := by
  unfold rpkiMainStateAfterBatch rpki_update_state
  simp [rpkiUpdateStateParams, rpkiUpdateStatePlaceholders]

/-- C3: the claim says a re-run of the aggregator over the same
half-open range leaves the set of FeatureRows unchanged because a
duplicate `(window_start, prefix, origin_as)` insert is ignored. The code
has neither the uniqueness constraint nor an ON CONFLICT clause: running
`aggregate_once` twice over the same range, on one raw update, leaves two
feature rows carrying the same key triple where the first run left one. -/
theorem aggregate_once_rerun_duplicates :
    ((aggregate_once (aggregate_once [] [⟨65, "8.8.8.0/24", 15169, false, 1, some 3⟩] 0 100)
        [⟨65, "8.8.8.0/24", 15169, false, 1, some 3⟩] 0 100).filter fun r =>
      r.windowStart == 60 && r.pfx == "8.8.8.0/24" && r.originAs == 15169).length = 2 ∧
    ((aggregate_once [] [⟨65, "8.8.8.0/24", 15169, false, 1, some 3⟩] 0 100).filter fun r =>
      r.windowStart == 60 && r.pfx == "8.8.8.0/24" && r.originAs == 15169).length = 1 := by
  constructor <;> rfl

/-- C8 counterexample: at exactly 50 session resets the claim demands
severity critical, but `check_session_resets` only goes critical strictly
above its threshold of 50 and returns high. -/
theorem check_session_resets_at_50_counterexample :
    (50 : Nat) ≥ 50 ∧
    ((check_session_resets
      { id := 1, windowStart := 60, windowEnd := 120, pfx := "8.8.8.0/24",
        originAs := 15169, announcements := 1, withdrawals := 0,
        totalUpdates := 1, withdrawalRatio := 0, flapCount := 0,
        pathLength := 3, uniquePeers := 1, messageRate := 1/60,
        sessionResets := 50 }).map fun h => h.severity) = some "high" := by
  exact ⟨by omega, rfl⟩

/-- C8 amended: `check_session_resets` fires medium exactly on
6 ≤ resets < 11, high exactly on 11 ≤ resets ≤ 50, critical exactly on
resets > 50, and stays silent below 6. -/
theorem check_session_resets_characterization (row : FeatureRow) :
    (((check_session_resets row).map fun h => h.severity) = some "medium" ↔
      6 ≤ row.sessionResets ∧ row.sessionResets < 11) ∧
    (((check_session_resets row).map fun h => h.severity) = some "high" ↔
      11 ≤ row.sessionResets ∧ row.sessionResets ≤ 50) ∧
    (((check_session_resets row).map fun h => h.severity) = some "critical" ↔
      50 < row.sessionResets) ∧
    (check_session_resets row = none ↔ row.sessionResets < 6) := by
  unfold check_session_resets
  split_ifs <;> simp_all <;> omega

/-- C1 counterexample: a group with an rpki detection whose description
indicates a maxlength violation but whose `rpki_status` is not
`'invalid'`, plus a path_inflation heuristic detection and no
origin-mismatch signal, satisfies the claim as stated yet is classified
SUSPICIOUS/medium — `has_rpki_maxlength` only scans invalid-status rows. -/
theorem classify_maxlength_claim_counterexample :
    hasRpkiOriginMismatch
      [⟨"rpki", "unknown", "low",
        "MaxLength violation: prefix /25 exceeds max_length /24 - LEAK/CONFIG ERROR", []⟩,
       ⟨"heuristic", "unknown", "low", "", ["path_inflation"]⟩] = false ∧
    ([(⟨"rpki", "unknown", "low",
        "MaxLength violation: prefix /25 exceeds max_length /24 - LEAK/CONFIG ERROR", []⟩ : CorrRow),
      ⟨"heuristic", "unknown", "low", "", ["path_inflation"]⟩].any fun d =>
        d.eventType == "rpki" &&
          (strContains (lowerStr d.rpkiDescription) "maxlength" ||
           strContains (lowerStr d.rpkiDescription) "leak")) = true ∧
    hasPathInflation
      [⟨"rpki", "unknown", "low",
        "MaxLength violation: prefix /25 exceeds max_length /24 - LEAK/CONFIG ERROR", []⟩,
       ⟨"heuristic", "unknown", "low", "", ["path_inflation"]⟩] = true ∧
    ((classify_detection_group
      [⟨"rpki", "unknown", "low",
        "MaxLength violation: prefix /25 exceeds max_length /24 - LEAK/CONFIG ERROR", []⟩,
       ⟨"heuristic", "unknown", "low", "", ["path_inflation"]⟩]).map fun r =>
        (r.classification, r.finalSeverity)) = some ("SUSPICIOUS", "medium") := by
  exact ⟨by decide, by decide, by decide, by decide⟩

/-- C1 amended: when the group has no RPKI origin-mismatch signal, some
RPKI detection with `rpki_status = 'invalid'` whose description indicates
maxlength/leak, some heuristic detection listing the path_inflation rule,
and at least one recognised severity (so the severity-label lookup of the
source does not raise), `classify_detection_group` returns LEAK with
severity critical. -/
theorem classify_leak_critical_of_invalid_maxlength_and_path_inflation
    (g : List CorrRow)
    (hmis : hasRpkiOriginMismatch g = false)
    (hmax : hasRpkiMaxlength g = true)
    (hpi : hasPathInflation g = true)
    (hsev : maxSeverityNat g ≠ 0) :
    ((classify_detection_group g).map fun r =>
      (r.classification, r.finalSeverity)) = some ("LEAK", "critical") := by
  have h4 := maxSeverityNat_le_four g
  have h14 : maxSeverityNat g = 1 ∨ maxSeverityNat g = 2 ∨
      maxSeverityNat g = 3 ∨ maxSeverityNat g = 4 := by omega
  have hl : ∃ l, sevLabelOfNat (maxSeverityNat g) = some l := by
    rcases h14 with h | h | h | h
    · exact ⟨"low", by rw [h]; rfl⟩
    · exact ⟨"medium", by rw [h]; rfl⟩
    · exact ⟨"high", by rw [h]; rfl⟩
    · exact ⟨"critical", by rw [h]; rfl⟩
  obtain ⟨l, hl⟩ := hl
  unfold classify_detection_group
  rw [hl]
  simp [hmis, hmax, hpi]

/-- C1 witness: a concrete group meeting the amended hypotheses is
classified LEAK/critical. -/
theorem classify_leak_critical_witness :
    hasRpkiOriginMismatch
      [⟨"rpki", "invalid", "high",
        "MaxLength violation: prefix /25 exceeds max_length /24 - LEAK/CONFIG ERROR", []⟩,
       ⟨"heuristic", "unknown", "high", "", ["path_inflation"]⟩] = false ∧
    hasRpkiMaxlength
      [⟨"rpki", "invalid", "high",
        "MaxLength violation: prefix /25 exceeds max_length /24 - LEAK/CONFIG ERROR", []⟩,
       ⟨"heuristic", "unknown", "high", "", ["path_inflation"]⟩] = true ∧
    hasPathInflation
      [⟨"rpki", "invalid", "high",
        "MaxLength violation: prefix /25 exceeds max_length /24 - LEAK/CONFIG ERROR", []⟩,
       ⟨"heuristic", "unknown", "high", "", ["path_inflation"]⟩] = true ∧
    ((classify_detection_group
      [⟨"rpki", "invalid", "high",
        "MaxLength violation: prefix /25 exceeds max_length /24 - LEAK/CONFIG ERROR", []⟩,
       ⟨"heuristic", "unknown", "high", "", ["path_inflation"]⟩]).map fun r =>
        (r.classification, r.finalSeverity)) = some ("LEAK", "critical") := by
  refine ⟨rfl, rfl, rfl, ?_⟩
  exact classify_leak_critical_of_invalid_maxlength_and_path_inflation _
    rfl rfl rfl (by decide)

/-- C4: the claim says deleting the heuristic state row and restarting
reprocesses the last 24 hours and reproduces the same detection ids. The
code defaults the checkpoint on a missing state row to the current time
(the adjacent comment even reads `Default to 10 minutes ago`), so the
restarted detector fetches nothing: on a table holding one rule-firing
row within the last 24 hours, the first run emits one detection while the
restarted run emits none. -/
theorem heuristic_restart_reprocesses_nothing :
    (let row : FeatureRow :=
      ⟨1, 60, 120, "8.8.8.0/24", 64512, 1, 0, 1, 0, 0, 3, 1, 1, 0⟩
     ((heuristic_process_feature_rows [row] (fun _ => false) []
        (fetch_new_feature_rows [row] 0)).1.map fun d => d.detectionId) =
          ["heur_heuristic_60_8.8.8.0/24_64512"] ∧
     heuristic_get_last_processed_timestamp none 200 = 200 ∧
     fetch_new_feature_rows [row]
        (heuristic_get_last_processed_timestamp none 200) = [] ∧
     (heuristic_process_feature_rows [row] (fun _ => false) []
        (fetch_new_feature_rows [row]
          (heuristic_get_last_processed_timestamp none 200))).1 = [] ∧
     200 - row.windowStart < 86400) := by
  exact ⟨by decide, rfl, rfl, rfl, by decide⟩

/-- C5 counterexample: an invalid answer whose reason contains `as` but
whose VRP lists name no foreign origin falls through to the generic
invalid branch — severity high, score 7 — where the claim demands
critical with score 10. -/
theorem validate_rpki_invalid_as_reason_counterexample :
    strContains (lowerStr "as") "as" = true ∧
    ((validate_rpki 65001 (some 24) (some ⟨"invalid", "as", [], []⟩)).map fun r =>
      (r.severity, get_severity_score r.severity)) = some ("high", 7) := by
  exact ⟨rfl, rfl⟩

/-- C5 amended decision table of `validate_rpki`: valid emits nothing;
invalid with an `as`/`origin` reason is critical with score 10 provided
some matched or unmatched VRP carries a present, nonzero ASN different
from the announced origin; not-found/unknown is low with score 2; and
every emitted detection scores its severity through
critical 10 / high 7 / low 2. -/
theorem validate_rpki_decision_table (originAs : Int) (pl : Nat)
    (resp : RoutResp) :
    (resp.state = "valid" → validate_rpki originAs (some pl) (some resp) = none) ∧
    (resp.state = "invalid" →
      (strContains (lowerStr resp.reason) "as" ||
       strContains (lowerStr resp.reason) "origin") = true →
      roaOrigins originAs resp.matched resp.unmatched ≠ [] →
      ∃ r, validate_rpki originAs (some pl) (some resp) = some r ∧
        r.severity = "critical" ∧ get_severity_score r.severity = 10) ∧
    ((resp.state = "not-found" ∨ resp.state = "unknown") →
      ∃ r, validate_rpki originAs (some pl) (some resp) = some r ∧
        r.severity = "low" ∧ get_severity_score r.severity = 2) ∧
    (∀ (plo : Option Nat) (ar : Option RoutResp) (r : RpkiResult),
      validate_rpki originAs plo ar = some r →
      (r.severity = "critical" ∧ get_severity_score r.severity = 10) ∨
      (r.severity = "high" ∧ get_severity_score r.severity = 7) ∨
      (r.severity = "low" ∧ get_severity_score r.severity = 2)) := by
  refine ⟨?_, ?_, ?_, ?_⟩
  · intro h
    simp [validate_rpki, h]
  · intro h hr hroa
    have hE : (roaOrigins originAs resp.matched resp.unmatched).isEmpty = false := by
      cases hx : roaOrigins originAs resp.matched resp.unmatched with
      | nil => exact absurd hx hroa
      | cons a t => rfl
    refine ⟨⟨"invalid", "critical",
      "Origin AS mismatch: announced AS" ++ toString originAs ++
        ", ROA expects AS" ++
        toString ((roaOrigins originAs resp.matched resp.unmatched).headD 0) ++
        " - HIJACK SIGNAL",
      (resp.matched, resp.unmatched)⟩, ?_, rfl, rfl⟩
    simp [validate_rpki, h, hr, hE]
  · intro h
    rcases h with h | h <;>
      exact ⟨⟨"unknown", "low", "No ROA found - INFORMATIONAL",
          (resp.matched, resp.unmatched)⟩,
        by simp [validate_rpki, h], rfl, rfl⟩
  · intro plo ar r hval
    cases plo with
    | none => simp [validate_rpki] at hval
    | some n =>
      cases ar with
      | none => simp [validate_rpki] at hval
      | some rr =>
        simp only [validate_rpki] at hval
        split_ifs at hval <;>
          simp only [Option.some.injEq, reduceCtorEq] at hval <;>
          subst hval <;>
          first
            | exact Or.inl ⟨rfl, rfl⟩
            | exact Or.inr (Or.inl ⟨rfl, rfl⟩)
            | exact Or.inr (Or.inr ⟨rfl, rfl⟩)

/-- C5 witness: one valid response emitting nothing, and one invalid
origin-mismatch response emitting a critical detection with score 10. -/
theorem validate_rpki_decision_table_witness :
    validate_rpki 65001 (some 24) (some ⟨"valid", "", [], []⟩) = none ∧
    ∃ r, validate_rpki 65001 (some 24)
        (some ⟨"invalid", "origin mismatch", [⟨some 13335, none⟩], []⟩) = some r ∧
      r.severity = "critical" ∧ get_severity_score r.severity = 10 := by
  have h1 := validate_rpki_decision_table 65001 24 ⟨"valid", "", [], []⟩
  have h2 := validate_rpki_decision_table 65001 24
    ⟨"invalid", "origin mismatch", [⟨some 13335, none⟩], []⟩
  exact ⟨h1.1 rfl, h2.2.1 rfl (by decide) (by decide)⟩

/-- C6: the z-score formulas, ensemble combination over the documented
`ENSEMBLE_METHOD` domain, anomaly flag at 3.0, and severity buckets
(low below 3, medium below 4, high below 5, else critical, with
2.9999 low, 3.0 medium and 5.0 critical) of `compute_z_score_ensemble`. -/
theorem ml_z_score_ensemble_spec (iso lstm c : ℚ) (method : String)
    (hm : method = "avg" ∨ method = "max") :
    mlZIso iso = -(iso - (-14/100)) / (12/1000) ∧
    mlZLstm lstm = (lstm - 1399/100) / (268/100) ∧
    mlCombined method (mlZIso iso) (mlZLstm lstm) =
      (if method = "avg" then (mlZIso iso + mlZLstm lstm) / 2
       else max (mlZIso iso) (mlZLstm lstm)) ∧
    (mlAnomaly c = true ↔ c ≥ 3) ∧
    (c < 3 → mlSeverity c = "low") ∧
    (3 ≤ c → c < 4 → mlSeverity c = "medium") ∧
    (4 ≤ c → c < 5 → mlSeverity c = "high") ∧
    (5 ≤ c → mlSeverity c = "critical") ∧
    mlSeverity (29999/10000) = "low" ∧
    mlSeverity 3 = "medium" ∧ mlSeverity 5 = "critical" := by
  refine ⟨?_, ?_, ?_, ?_, ?_, ?_, ?_, ?_, ?_, ?_, ?_⟩
  · rw [mlZIso, if_pos (by norm_num [isoStd])]
    rw [isoMean, isoStd]
    ring
  · rw [mlZLstm, if_pos (by norm_num [lstmStd])]
    rw [lstmMean, lstmStd]
  · rcases hm with rfl | rfl <;> simp [mlCombined]
  · simp [mlAnomaly, ANOMALY_THRESHOLD]
  · intro h
    rw [mlSeverity]
    split_ifs <;> rfl
  · intro h1 h2
    rw [mlSeverity]
    split_ifs <;> first | rfl | linarith
  · intro h1 h2
    rw [mlSeverity]
    split_ifs <;> first | rfl | linarith
  · intro h
    rw [mlSeverity]
    split_ifs <;> first | rfl | linarith
  · norm_num [mlSeverity]
  · norm_num [mlSeverity]
  · norm_num [mlSeverity]

/-- C6 witness: the ensemble spec applied at concrete scores. -/
theorem ml_z_score_ensemble_spec_witness :
    mlAnomaly 3 = true ∧ mlSeverity 3 = "medium" := by
  have h := ml_z_score_ensemble_spec 0 0 3 "avg" (Or.inl rfl)
  exact ⟨h.2.2.2.1.mpr (by norm_num), h.2.2.2.2.2.2.2.2.2.1⟩

/-- C7: every feature row the aggregation SELECT produces satisfies
`total_updates = announcements + withdrawals`,
`withdrawal_ratio = withdrawals / max(announcements, 1)`,
`flap_count = (announcements + withdrawals) / 2` (floored),
`message_rate = total_updates / 60`, and `path_length` is the mean of the
joined non-null `as_path_count` values, falling back to
`2 + origin_as mod 3` when all joined values are null. -/
theorem aggregate_feature_row_equations (updates : List IpRibRow)
    (fromTs toTs : Nat) (r : FeatureRow)
    (hr : r ∈ newFeatureRows updates fromTs toTs) :
    r.totalUpdates = r.announcements + r.withdrawals ∧
    r.withdrawalRatio = (r.withdrawals : ℚ) / ((max r.announcements 1 : Nat) : ℚ) ∧
    r.flapCount = (r.announcements + r.withdrawals) / 2 ∧
    r.messageRate = (r.totalUpdates : ℚ) / 60 ∧
    (((aggGroup updates fromTs toTs r.windowStart r.pfx r.originAs).filterMap
        fun u => u.asPathCount) = [] →
      r.pathLength = 2 + ((r.originAs % 3 : Nat) : ℚ)) ∧
    (((aggGroup updates fromTs toTs r.windowStart r.pfx r.originAs).filterMap
        fun u => u.asPathCount) ≠ [] →
      r.pathLength =
        ((aggGroup updates fromTs toTs r.windowStart r.pfx r.originAs).filterMap
          fun u => u.asPathCount).sum /
        ((aggGroup updates fromTs toTs r.windowStart r.pfx r.originAs).filterMap
          fun u => u.asPathCount).length) := by
  obtain ⟨k, hk, rfl⟩ := List.mem_map.mp hr
  refine ⟨?_, rfl, ?_, rfl, ?_, ?_⟩
  · exact (length_filter_not_add_length_filter
      (aggGroup updates fromTs toTs k.1 k.2.1 k.2.2) fun u => u.iswithdrawn).symm
  · exact congrArg (fun x => x / 2)
      (Nat.add_comm
        ((aggGroup updates fromTs toTs k.1 k.2.1 k.2.2).filter fun u =>
          u.iswithdrawn).length
        ((aggGroup updates fromTs toTs k.1 k.2.1 k.2.2).filter fun u =>
          !u.iswithdrawn).length)
  · intro h
    have h2 : ((aggGroup updates fromTs toTs k.1 k.2.1 k.2.2).filterMap
        fun u => u.asPathCount) = [] := h
    have hE : ((aggGroup updates fromTs toTs k.1 k.2.1 k.2.2).filterMap
        fun u => u.asPathCount).isEmpty = true := by
      rw [h2]
      rfl
    simp only [featuresFor, hE]
    rfl
  · intro h
    have h2 : ((aggGroup updates fromTs toTs k.1 k.2.1 k.2.2).filterMap
        fun u => u.asPathCount) ≠ [] := h
    have hE : ((aggGroup updates fromTs toTs k.1 k.2.1 k.2.2).filterMap
        fun u => u.asPathCount).isEmpty = false := by
      cases hx : (aggGroup updates fromTs toTs k.1 k.2.1 k.2.2).filterMap
          fun u => u.asPathCount with
      | nil => exact absurd hx h2
      | cons a t => rfl
    simp only [featuresFor, hE]
    rfl

/-- C7 witness: the equations hold on the row aggregated from two
concrete raw updates. -/
theorem aggregate_feature_row_equations_witness :
    (let r := featuresFor
      [⟨65, "8.8.8.0/24", 15169, false, 1, some 3⟩,
       ⟨70, "8.8.8.0/24", 15169, true, 2, none⟩] 0 100 60 "8.8.8.0/24" 15169
     r.totalUpdates = r.announcements + r.withdrawals ∧
     r.flapCount = (r.announcements + r.withdrawals) / 2) := by
  have h := aggregate_feature_row_equations
    [⟨65, "8.8.8.0/24", 15169, false, 1, some 3⟩,
     ⟨70, "8.8.8.0/24", 15169, true, 2, none⟩] 0 100
    (featuresFor
      [⟨65, "8.8.8.0/24", 15169, false, 1, some 3⟩,
       ⟨70, "8.8.8.0/24", 15169, true, 2, none⟩] 0 100 60 "8.8.8.0/24" 15169)
    (by
      rw [show newFeatureRows
          [⟨65, "8.8.8.0/24", 15169, false, 1, some 3⟩,
           ⟨70, "8.8.8.0/24", 15169, true, 2, none⟩] 0 100 =
        [featuresFor
          [⟨65, "8.8.8.0/24", 15169, false, 1, some 3⟩,
           ⟨70, "8.8.8.0/24", 15169, true, 2, none⟩] 0 100 60 "8.8.8.0/24" 15169]
        from rfl]
      exact List.mem_singleton_self _)
  exact ⟨h.1, h.2.2.1⟩

/-- C9: a validation query issues at most `MAX_RETRIES = 3` requests,
each with `REQUEST_TIMEOUT = 5` seconds; when all three attempts time
out, `query_routinator_api` returns nothing, `validate_rpki` produces no
result, and the detection table is left untouched for that feature row. -/
theorem rpki_three_timeouts_emit_nothing (outcomes : Nat → HttpOutcome)
    (tbl : List RpkiDetRow) (row : RpkiFeatureRow)
    (h : ∀ i, i < MAX_RETRIES → outcomes i = HttpOutcome.timeout) :
    REQUEST_TIMEOUT = 5 ∧
    (∀ oc : Nat → HttpOutcome, query_routinator_requests oc ≤ MAX_RETRIES) ∧
    query_routinator_api outcomes = none ∧
    validate_rpki row.originAs (get_prefix_length row.pfx)
      (query_routinator_api outcomes) = none ∧
    rpkiProcessRow outcomes tbl row = tbl := by
  have h0 := h 0 (by decide)
  have h1 := h 1 (by decide)
  have h2 := h 2 (by decide)
  have hq : query_routinator_api outcomes = none := by
    simp [query_routinator_api, MAX_RETRIES, queryLoop, h0, h1, h2]
  refine ⟨rfl, fun oc => queryRequests_le_fuel oc MAX_RETRIES 0, hq, ?_, ?_⟩
  · rw [hq]
    exact validate_rpki_none _ _
  · unfold rpkiProcessRow
    rw [hq, validate_rpki_none]

/-- C9 witness: the timeout budget applied to a concrete all-timeout
outcome stream and one concrete feature row. -/
theorem rpki_three_timeouts_emit_nothing_witness :
    query_routinator_api (fun _ => HttpOutcome.timeout) = none ∧
    rpkiProcessRow (fun _ => HttpOutcome.timeout) [] ⟨60, "8.8.8.0/24", 65001⟩ = [] := by
  have h := rpki_three_timeouts_emit_nothing (fun _ => HttpOutcome.timeout) []
    ⟨60, "8.8.8.0/24", 65001⟩ (fun i _ => rfl)
  exact ⟨h.2.2.1, h.2.2.2.2⟩

/-- C10: `insert_detection` swallows every database error (on error the
detection table is simply unchanged); after a non-empty batch the
heuristic checkpoint is advanced to the maximum fetched `window_start`
whatever the error oracle says, so any batch row — including one whose
detection insert failed — lies at or below the new checkpoint and is
never fetched again. -/
theorem heuristic_checkpoint_advances_despite_insert_errors
    (tbl : List FeatureRow) (detTbl : List HeurDetection)
    (stateRow : Option HeurStateRow) (now : Nat)
    (dbErrors dbErrors2 : Nat → Bool)
    (hne : heuristicBatch tbl stateRow now ≠ []) :
    (∀ (dTbl : List HeurDetection) (det : HeurDetection),
      insert_detection dTbl det true = dTbl) ∧
    (heuristicMainIteration tbl detTbl stateRow now dbErrors).2 =
      some (heuristic_update_state (stateRow.getD ⟨none, 0⟩)
        (maxWindowStart (heuristicBatch tbl stateRow now))
        (heuristicBatch tbl stateRow now).length) ∧
    (heuristicMainIteration tbl detTbl stateRow now dbErrors).2 =
      (heuristicMainIteration tbl detTbl stateRow now dbErrors2).2 ∧
    (∀ r ∈ heuristicBatch tbl stateRow now, ∀ tbl2 : List FeatureRow,
      r ∉ fetch_new_feature_rows tbl2
        (maxWindowStart (heuristicBatch tbl stateRow now))) := by
  have hE : (heuristicBatch tbl stateRow now).isEmpty = false := by
    cases hx : heuristicBatch tbl stateRow now with
    | nil => exact absurd hx hne
    | cons a t => rfl
  have hstep : ∀ oc : Nat → Bool,
      (heuristicMainIteration tbl detTbl stateRow now oc).2 =
        some (heuristic_update_state (stateRow.getD ⟨none, 0⟩)
          (maxWindowStart (heuristicBatch tbl stateRow now))
          (heuristicBatch tbl stateRow now).length) := by
    intro oc
    have hE2 : (fetch_new_feature_rows tbl
      (heuristic_get_last_processed_timestamp
        (stateRow.map fun s => s.lastProcessedTimestamp) now)).isEmpty = false := hE
    simp only [heuristicMainIteration, heuristicBatch]
    simp [hE2]
  refine ⟨fun dTbl det => rfl, hstep dbErrors, ?_, ?_⟩
  · rw [hstep dbErrors, hstep dbErrors2]
  · intro r hr tbl2 hmem
    have hle : r.windowStart ≤ maxWindowStart (heuristicBatch tbl stateRow now) := by
      exact le_foldl_max_of_mem 0 (List.mem_map.mpr ⟨r, hr, rfl⟩)
    have hgt : r.windowStart > maxWindowStart (heuristicBatch tbl stateRow now) := by
      have := (List.mem_filter.mp hmem).2
      simpa using this
    omega

/-- C10 witness: with one rule-firing row and an oracle failing every
insert, the detection table stays empty yet the checkpoint still advances
to the window of the fetched row. -/
theorem heuristic_checkpoint_advance_witness :
    heuristicBatch
      [⟨1, 60, 120, "8.8.8.0/24", 64512, 1, 0, 1, 0, 0, 3, 1, 1, 0⟩]
      (some ⟨some 0, 0⟩) 100 ≠ [] ∧
    (heuristicMainIteration
      [⟨1, 60, 120, "8.8.8.0/24", 64512, 1, 0, 1, 0, 0, 3, 1, 1, 0⟩]
      [] (some ⟨some 0, 0⟩) 100 (fun _ => true)).2 =
        some (heuristic_update_state ⟨some 0, 0⟩
          (maxWindowStart (heuristicBatch
            [⟨1, 60, 120, "8.8.8.0/24", 64512, 1, 0, 1, 0, 0, 3, 1, 1, 0⟩]
            (some ⟨some 0, 0⟩) 100)) 1) ∧
    (heuristicMainIteration
      [⟨1, 60, 120, "8.8.8.0/24", 64512, 1, 0, 1, 0, 0, 3, 1, 1, 0⟩]
      [] (some ⟨some 0, 0⟩) 100 (fun _ => true)).1 = [] := by
  have h := heuristic_checkpoint_advances_despite_insert_errors
    [⟨1, 60, 120, "8.8.8.0/24", 64512, 1, 0, 1, 0, 0, 3, 1, 1, 0⟩]
    [] (some ⟨some 0, 0⟩) 100 (fun _ => true) (fun _ => true) (by decide)
  exact ⟨by decide, h.2.1, by decide⟩

end BGPMon
